import Mathlib

/-!
Verification of the volume-breakout detection engine of the scraper_collection
repository.  The Python sources under src/vol/ are shallowly embedded here:
daily volumes, prices and scores are modelled as exact rationals, bar lists as
Lean lists (oldest first, matching the feed order), and every fallible analysis
returns an Option (the source returns None on each rejection).  For each
analysis function we additionally give an instrumented variant returning
Except Reason Detection, whose error tags name the early-return site of the
source that produced the None; an erasure lemma ties the two together.
-/

/-- One daily bar.  The source parses date, open, close, high, low, volume and
a derived change percentage; the analysis code reads only the date and the
volume, so only those two fields are embedded. -/
structure Bar where
  date : Nat
  volume : ℚ
deriving DecidableEq

/-- Live snapshot for one instrument, as consumed by the analysis entry points
(the fields code, current_price, change_pct, today_volume, turnover of the
source stock_info mapping). -/
structure StockInfo where
  code : String
  current_price : ℚ
  change_pct : ℚ
  today_volume : ℚ
  turnover : ℚ
deriving DecidableEq

/-- Count of days whose volume strictly exceeds the threshold; embeds the list
comprehensions of the form len([d for d in days if d["volume"] > threshold])
used by volume_anomaly_workflow.analyze_volume_anomaly and the debug detector. -/
def countOver (days : List Bar) (threshold : ℚ) : Nat :=
  (days.filter (fun d => threshold < d.volume)).length

/-- Maximum of a list of rationals, as the Python builtin max over a nonempty
list (the source only applies it to nonempty lists; on [] we return 0). -/
def listMax : List ℚ → ℚ
  | [] => 0
  | x :: xs => xs.foldl max x

/-- Detection parameters of VolumeAnomalyWorkflow (the self attributes set in
its constructor). -/
structure WfConfig where
  strict_threshold : ℚ
  loose_threshold : ℚ
  recent_days : Nat
  min_volume : ℚ
  min_change_pct : ℚ

/-- Default parameters from VolumeAnomalyWorkflow.__init__. -/
def wfDefaults : WfConfig :=
  { strict_threshold := 0.5
    loose_threshold := 0.6
    recent_days := 15
    min_volume := 5.0
    min_change_pct := 0.3 }

/-- The three anomaly labels appended to anomaly_type by the workflow. -/
inductive AnomalyType where
  | strictBreak
  | recentBreak
  | looseBreak
deriving DecidableEq

/-- Strict mode of the workflow: the long window never exceeded the strict
threshold (len(over_strict_days) == 0). -/
def isStrictAnomaly (overStrictDays : Nat) : Bool :=
  overStrictDays == 0

/-- Loose mode of the workflow: at most 2 long-window days over the loose
threshold and at most 1 recent-window day over the strict threshold. -/
def isLooseAnomaly (overLooseDays overStrictRecent : Nat) : Bool :=
  decide (overLooseDays ≤ 2) && decide (overStrictRecent ≤ 1)

/-- Recent-breakthrough mode of the workflow: no recent-window day over the
strict threshold (len(over_strict_recent) == 0). -/
def isRecentBreakthrough (overStrictRecent : Nat) : Bool :=
  overStrictRecent == 0

/-- Breakthrough sub-score of the workflow: 50 for strict, 30 for recent
breakthrough, 20 for loose, summed over the modes that hold. -/
def breakthroughScore (strict recentBt loose : Bool) : ℚ :=
  (if strict then 50 else 0) + (if recentBt then 30 else 0) +
    (if loose then 20 else 0)

/-- Anomaly record returned by VolumeAnomalyWorkflow.analyze_volume_anomaly
(fields that are plain copies of the input or chart-only payload are omitted;
the computed breakthrough sub-score is exposed as its own field). -/
structure WfAnomaly where
  code : String
  today_volume : ℚ
  strict_threshold : ℚ
  loose_threshold : ℚ
  historical_max : ℚ
  recent_max : ℚ
  over_strict_days : Nat
  over_loose_days : Nat
  over_strict_recent : Nat
  breakthrough_score : ℚ
  anomaly_score : ℚ
  anomaly_type : List AnomalyType
  is_historical_high : Bool
deriving DecidableEq

/-- Long window of the workflow: historical_60 = kline_data[:-1]. -/
def wfHistorical (kline : List Bar) : List Bar :=
  kline.dropLast

/-- Recent window of the workflow: recent_15 = historical_60[-recent_days:]. -/
def wfRecent (cfg : WfConfig) (kline : List Bar) : List Bar :=
  (wfHistorical kline).drop ((wfHistorical kline).length - cfg.recent_days)

/-- Embedding of VolumeAnomalyWorkflow.analyze_volume_anomaly.  The kline list
is the data returned by get_stock_kline_data(code, days=61), oldest first with
the still-forming today bar last; today_volume and change_pct come from the
snapshot.  Every early return None of the source is none here.  Division by
zero yields 0 in the rationals; under the default minimum volume (5.0) the
strict threshold divisor is positive, matching the float of the source. -/
def analyzeWf (cfg : WfConfig) (info : StockInfo) (kline : List Bar) :
    Option WfAnomaly :=
  if info.today_volume < cfg.min_volume then none
  else if info.change_pct < cfg.min_change_pct then none
  else if kline.length < 61 then none
  else
    let historical := wfHistorical kline
    let strictT := info.today_volume * cfg.strict_threshold
    let looseT := info.today_volume * cfg.loose_threshold
    let overStrict := countOver historical strictT
    let overLoose := countOver historical looseT
    let recent := wfRecent cfg kline
    let overStrictRecent := countOver recent strictT
    let strict := isStrictAnomaly overStrict
    let loose := isLooseAnomaly overLoose overStrictRecent
    let recentBt := isRecentBreakthrough overStrictRecent
    if strict || loose || recentBt then
      let histMax := listMax (historical.map Bar.volume)
      let recMax := listMax (recent.map Bar.volume)
      let btScore := breakthroughScore strict recentBt loose
      let volumeScore := min 30 ((info.today_volume / strictT) * 10)
      let priceScore := min 20 (info.change_pct * 5)
      some
        { code := info.code
          today_volume := info.today_volume
          strict_threshold := strictT
          loose_threshold := looseT
          historical_max := histMax
          recent_max := recMax
          over_strict_days := overStrict
          over_loose_days := overLoose
          over_strict_recent := overStrictRecent
          breakthrough_score := btScore
          anomaly_score := btScore + volumeScore + priceScore
          anomaly_type :=
            (if strict then [AnomalyType.strictBreak] else []) ++
            (if recentBt then [AnomalyType.recentBreak] else []) ++
            (if loose then [AnomalyType.looseBreak] else [])
          is_historical_high := decide (histMax < info.today_volume) }
    else none

/-- Rejection reasons of the error taxonomy.  The Python analyzers return the
bare None at every rejection site; each constructor here names one family of
those early-return sites so that theorems can speak about which check failed. -/
inductive Reason where
  | preFilter
  | insufficientHistory
  | insufficientStableSamples
  | baselineTooThin
  | baselineUnstable
  | volumeRatioOutOfRange
  | notFirstOccurrence
  | scoreBelowThreshold
deriving DecidableEq

/-- Forgetting the rejection reason: an instrumented Except result collapses to
the Option actually produced by the source (error becomes None). -/
def exceptErase {α : Type} : Except Reason α → Option α
  | Except.error _ => none
  | Except.ok a => some a

/-- Python negative-index slice l[-m:-k] for m, k at least 1; Nat subtraction
reproduces the Python clamping of out-of-range negative indices to 0. -/
def sliceNeg {α : Type} (l : List α) (m k : Nat) : List α :=
  (l.take (l.length - k)).drop (l.length - m)

/-- Stable window: kline_data[-(stable_days+recent_check_days+1):-(recent_check_days+1)]. -/
def stablePeriod (stableDays recentDays : Nat) (kline : List Bar) : List Bar :=
  sliceNeg kline (stableDays + recentDays + 1) (recentDays + 1)

/-- Recent window: kline_data[-(recent_check_days+1):-1]. -/
def recentPeriod (recentDays : Nat) (kline : List Bar) : List Bar :=
  sliceNeg kline (recentDays + 1) 1

/-- Volumes of the stable window with non-positive entries removed, embedding
the comprehension [d["volume"] for d in stable_period if d["volume"] > 0]. -/
def positiveVolumes (w : List Bar) : List ℚ :=
  (w.filter (fun d => 0 < d.volume)).map Bar.volume

/-- Arithmetic mean, as statistics.mean (division by zero yields 0 on []). -/
def listMean (l : List ℚ) : ℚ :=
  l.sum / (l.length : ℚ)

/-- Sample variance with Bessel correction, the quantity under the square root
in statistics.stdev. -/
def sampleVar (l : List ℚ) : ℚ :=
  (l.map (fun x => (x - listMean l) ^ 2)).sum / ((l.length : ℚ) - 1)

/-- Rational square root: exact whenever the argument is the square of a
rational (the only case the theorems below evaluate numerically), otherwise a
fixed-precision approximation standing in for the float square root. -/
def ratSqrt (q : ℚ) : ℚ :=
  if q ≤ 0 then 0
  else ((Nat.sqrt (q.num.toNat * q.den * (10 ^ 6) ^ 2) : ℚ)) / ((q.den : ℚ) * 10 ^ 6)

/-- Sample standard deviation guarded as in the source: statistics.stdev when
more than one sample remains, else 0. -/
def sampleStdev (l : List ℚ) : ℚ :=
  if 1 < l.length then ratSqrt (sampleVar l) else 0

/-- Coefficient of variation: stdev/mean when the mean is positive, none
standing for the float("inf") branch of the source. -/
def cvOf (std avg : ℚ) : Option ℚ :=
  if 0 < avg then some (std / avg) else none

/-- The check stable_cv > max_cv of the source; the infinite cv (none) always
exceeds the bound. -/
def cvExceeds (cv : Option ℚ) (maxCv : ℚ) : Bool :=
  match cv with
  | none => true
  | some v => decide (maxCv < v)

/-- Per-day ratio to the stable baseline: volume/mean when the mean is
positive, else 0 (the guarded division of the source loops). -/
def dayRatio (avg v : ℚ) : ℚ :=
  if 0 < avg then v / avg else 0

/-- Count of recent-window days whose ratio to baseline reaches the fraction p
of the today ratio (day_ratio >= today_volume_ratio * p in the source). -/
def similarCount (p avg ratio : ℚ) (recent : List Bar) : Nat :=
  (recent.filter (fun d => ratio * p ≤ dayRatio avg d.volume)).length

/-- Running maximum of the recent-window day ratios, from 0 as in the source. -/
def recentMaxRatio (avg : ℚ) (recent : List Bar) : ℚ :=
  recent.foldl (fun m d => max m (dayRatio avg d.volume)) 0

/-- Stability sub-score of TodayFirstVolumeDetector: max(0, 30 - cv * 40). -/
def stabilityScoreTow (cv : ℚ) : ℚ :=
  max 0 (30 - cv * 40)

/-- Stability sub-score of RelaxedFirstVolumeStrategy: max(0, 40 - cv * 45). -/
def stabilityScoreRelaxed (cv : ℚ) : ℚ :=
  max 0 (40 - cv * 45)

/-- Detection parameters shared by TodayFirstVolumeDetector and
RelaxedFirstVolumeStrategy (their self attributes). -/
structure TowConfig where
  stable_days : Nat
  min_avg_volume : ℚ
  max_cv : ℚ
  today_volume_min_ratio : ℚ
  today_volume_max_ratio : ℚ
  today_change_min : ℚ
  today_change_max : ℚ
  recent_check_days : Nat
  max_similar_days : Nat
  min_price : ℚ
  max_price : ℚ

/-- Defaults from TodayFirstVolumeDetector.__init__ (volume_tow.py). -/
def towDefaults : TowConfig :=
  { stable_days := 20
    min_avg_volume := 8.0
    max_cv := 0.75
    today_volume_min_ratio := 1.8
    today_volume_max_ratio := 4.0
    today_change_min := 1.0
    today_change_max := 8.0
    recent_check_days := 15
    max_similar_days := 1
    min_price := 4.0
    max_price := 40.0 }

/-- Defaults from RelaxedFirstVolumeStrategy.__init__. -/
def relaxedDefaults : TowConfig :=
  { stable_days := 10
    min_avg_volume := 0.8
    max_cv := 2.8
    today_volume_min_ratio := 1.1
    today_volume_max_ratio := 10.0
    today_change_min := 0.2
    today_change_max := 30.0
    recent_check_days := 20
    max_similar_days := 3
    min_price := 3.0
    max_price := 150.0 }

/-- Detection record of the first-volume analyzers (chart-only and copied
fields omitted). -/
structure TowDetection where
  code : String
  today_volume_ratio : ℚ
  stable_avg_volume : ℚ
  stable_cv : ℚ
  recent_max_ratio : ℚ
  similar_volume_days : Nat
  quality_score : ℚ
  stability_score : ℚ
  first_score : ℚ
  volume_score : ℚ
  change_score : ℚ
deriving DecidableEq

/-- Instrumented embedding of TodayFirstVolumeDetector.analyze_today_first_volume
(volume_tow.py).  Each error tag marks the early return None of the source at
that point; the baseline check, a single if with an or in the source, is split
into its two disjuncts in evaluation order to name the failing disjunct. -/
def analyzeTowR (cfg : TowConfig) (info : StockInfo) (kline : List Bar) :
    Except Reason TowDetection :=
  if info.current_price < cfg.min_price ∨ cfg.max_price < info.current_price ∨
      info.change_pct < cfg.today_change_min ∨
      cfg.today_change_max < info.change_pct ∨
      info.today_volume < cfg.min_avg_volume then Except.error Reason.preFilter
  else if kline.length < 22 then Except.error Reason.insufficientHistory
  else
    let stable := stablePeriod cfg.stable_days cfg.recent_check_days kline
    let recent := recentPeriod cfg.recent_check_days kline
    if stable.length < cfg.stable_days ∨ recent.length < cfg.recent_check_days then
      Except.error Reason.insufficientHistory
    else
      let vols := positiveVolumes stable
      if vols.length < 15 then Except.error Reason.insufficientStableSamples
      else
        let avg := listMean vols
        let std := sampleStdev vols
        if avg < cfg.min_avg_volume then Except.error Reason.baselineTooThin
        else if cvExceeds (cvOf std avg) cfg.max_cv then
          Except.error Reason.baselineUnstable
        else
          let ratio := dayRatio avg info.today_volume
          if ¬(cfg.today_volume_min_ratio ≤ ratio ∧
              ratio ≤ cfg.today_volume_max_ratio) then
            Except.error Reason.volumeRatioOutOfRange
          else
            let simDays := similarCount 0.8 avg ratio recent
            if ¬(simDays ≤ cfg.max_similar_days) then
              Except.error Reason.notFirstOccurrence
            else
              let rmax := recentMaxRatio avg recent
              let cv := std / avg
              let stab := stabilityScoreTow cv
              let firstS := 40 - (simDays : ℚ) * 15 +
                max 0 (10 - (rmax / ratio) * 10)
              let volS : ℚ :=
                if 1.8 ≤ ratio ∧ ratio ≤ 2.5 then 20
                else if 1.5 ≤ ratio ∧ ratio ≤ 3.5 then 15
                else 10
              let chgS : ℚ :=
                if 1.5 ≤ info.change_pct ∧ info.change_pct ≤ 4.0 then 10
                else if 1.0 ≤ info.change_pct ∧ info.change_pct ≤ 6.0 then 7
                else 5
              let total := stab + firstS + volS + chgS
              if total < 60 then Except.error Reason.scoreBelowThreshold
              else
                Except.ok
                  { code := info.code
                    today_volume_ratio := ratio
                    stable_avg_volume := avg
                    stable_cv := cv
                    recent_max_ratio := rmax
                    similar_volume_days := simDays
                    quality_score := total
                    stability_score := stab
                    first_score := firstS
                    volume_score := volS
                    change_score := chgS }

/-- The source function itself: analyze_today_first_volume returns None at
every rejection site, i.e. the reason-erased instrumented analysis. -/
def analyzeTow (cfg : TowConfig) (info : StockInfo) (kline : List Bar) :
    Option TowDetection :=
  exceptErase (analyzeTowR cfg info kline)

/-- Instrumented embedding of RelaxedFirstVolumeStrategy.analyze_stock.  Same
pipeline as analyzeTowR with the literals of the relaxed script: minimum kline
length 18, minimum positive samples 10, similarity fraction 0.7, simplified
scores and acceptance threshold 50. -/
def analyzeRelaxedR (cfg : TowConfig) (info : StockInfo) (kline : List Bar) :
    Except Reason TowDetection :=
  if info.current_price < cfg.min_price ∨ cfg.max_price < info.current_price ∨
      info.change_pct < cfg.today_change_min ∨
      cfg.today_change_max < info.change_pct ∨
      info.today_volume < cfg.min_avg_volume then Except.error Reason.preFilter
  else if kline.length < 18 then Except.error Reason.insufficientHistory
  else
    let stable := stablePeriod cfg.stable_days cfg.recent_check_days kline
    let recent := recentPeriod cfg.recent_check_days kline
    if stable.length < cfg.stable_days ∨ recent.length < cfg.recent_check_days then
      Except.error Reason.insufficientHistory
    else
      let vols := positiveVolumes stable
      if vols.length < 10 then Except.error Reason.insufficientStableSamples
      else
        let avg := listMean vols
        let std := sampleStdev vols
        if avg < cfg.min_avg_volume then Except.error Reason.baselineTooThin
        else if cvExceeds (cvOf std avg) cfg.max_cv then
          Except.error Reason.baselineUnstable
        else
          let ratio := dayRatio avg info.today_volume
          if ¬(cfg.today_volume_min_ratio ≤ ratio ∧
              ratio ≤ cfg.today_volume_max_ratio) then
            Except.error Reason.volumeRatioOutOfRange
          else
            let simDays := similarCount 0.7 avg ratio recent
            if ¬(simDays ≤ cfg.max_similar_days) then
              Except.error Reason.notFirstOccurrence
            else
              let rmax := recentMaxRatio avg recent
              let cv := std / avg
              let stab := stabilityScoreRelaxed cv
              let firstS := 30 - (simDays : ℚ) * 10
              let volS : ℚ :=
                if 1.5 ≤ ratio ∧ ratio ≤ 2.5 then 20
                else if 1.2 ≤ ratio ∧ ratio ≤ 4.0 then 15
                else 10
              let chgS : ℚ :=
                if 1.0 ≤ info.change_pct ∧ info.change_pct ≤ 5.0 then 10
                else if 0.5 ≤ info.change_pct ∧ info.change_pct ≤ 8.0 then 7
                else 5
              let total := stab + firstS + volS + chgS
              if total < 50 then Except.error Reason.scoreBelowThreshold
              else
                Except.ok
                  { code := info.code
                    today_volume_ratio := ratio
                    stable_avg_volume := avg
                    stable_cv := cv
                    recent_max_ratio := rmax
                    similar_volume_days := simDays
                    quality_score := total
                    stability_score := stab
                    first_score := firstS
                    volume_score := volS
                    change_score := chgS }

/-- The source function itself: RelaxedFirstVolumeStrategy.analyze_stock
returns None at every rejection site. -/
def analyzeRelaxed (cfg : TowConfig) (info : StockInfo) (kline : List Bar) :
    Option TowDetection :=
  exceptErase (analyzeRelaxedR cfg info kline)

/-- Erasure: the instrumented first-volume analysis agrees with the source
function once reasons are forgotten. -/
theorem exceptErase_analyzeTowR (cfg : TowConfig) (info : StockInfo)
    (kline : List Bar) :
    exceptErase (analyzeTowR cfg info kline) = analyzeTow cfg info kline :=
  rfl

/-- Erasure for the relaxed variant. -/
theorem exceptErase_analyzeRelaxedR (cfg : TowConfig) (info : StockInfo)
    (kline : List Bar) :
    exceptErase (analyzeRelaxedR cfg info kline) = analyzeRelaxed cfg info kline :=
  rfl

/-- C4: breach counting is strict.  For every today volume, tier fraction f and
window, a day whose volume is exactly today_volume * f is not counted as a
breach, and a day strictly above that threshold is counted. -/
theorem breach_count_strict_boundary (today f : ℚ) (l : List Bar) (d : Bar) :
    (d.volume = today * f →
      countOver (d :: l) (today * f) = countOver l (today * f)) ∧
    (today * f < d.volume →
      countOver (d :: l) (today * f) = countOver l (today * f) + 1) := by
  constructor
  · intro h
    simp [countOver, List.filter_cons, h]
  · intro h
    simp [countOver, List.filter_cons, h]

/-- Witness for C4 at today volume 2 and tier 0.5, threshold 1: a day at
exactly 1 is not counted, a day at 3/2 is. -/
theorem breach_count_strict_boundary_witness :
    countOver [Bar.mk 0 1] (2 * (0.5 : ℚ)) = countOver [] (2 * (0.5 : ℚ)) ∧
    countOver [Bar.mk 0 (3 / 2)] (2 * (0.5 : ℚ)) =
      countOver [] (2 * (0.5 : ℚ)) + 1 :=
  ⟨(breach_count_strict_boundary 2 0.5 [] (Bar.mk 0 1)).1 (by norm_num),
   (breach_count_strict_boundary 2 0.5 [] (Bar.mk 0 (3 / 2))).2 (by norm_num)⟩

/-- C7: both stability scores are never negative, and both are non-increasing
in the coefficient of variation. -/
theorem stability_score_nonneg_antitone (c c1 c2 : ℚ) (h : c1 ≤ c2) :
    0 ≤ stabilityScoreTow c ∧ 0 ≤ stabilityScoreRelaxed c ∧
    stabilityScoreTow c2 ≤ stabilityScoreTow c1 ∧
    stabilityScoreRelaxed c2 ≤ stabilityScoreRelaxed c1 := by
  refine ⟨le_max_left 0 _, le_max_left 0 _, ?_, ?_⟩
  · exact max_le_max le_rfl (by linarith)
  · exact max_le_max le_rfl (by linarith)

/-- Witness for C7 at cv 1 and the pair 0.1 ≤ 0.2. -/
theorem stability_score_nonneg_antitone_witness :
    0 ≤ stabilityScoreTow 1 ∧ 0 ≤ stabilityScoreRelaxed 1 ∧
    stabilityScoreTow (2 / 10) ≤ stabilityScoreTow (1 / 10) ∧
    stabilityScoreRelaxed (2 / 10) ≤ stabilityScoreRelaxed (1 / 10) :=
  stability_score_nonneg_antitone 1 (1 / 10) (2 / 10) (by norm_num)

/-- Stable insertion step of the ranking sort: a later detection is placed
after every earlier detection of greater or equal score, mirroring the
stability of the Python list.sort with reverse=True. -/
def insertByScore (x : TowDetection) : List TowDetection → List TowDetection
  | [] => [x]
  | y :: ys =>
    if y.quality_score ≤ x.quality_score then x :: y :: ys
    else y :: insertByScore x ys

/-- Ranking of TodayFirstVolumeDetector.detect_all_first_volume: the detected
list sorted by quality_score descending with the stable sort of Python
(self.first_volume_stocks.sort(key=..., reverse=True)). -/
def sortByScoreDesc : List TowDetection → List TowDetection
  | [] => []
  | x :: xs => insertByScore x (sortByScoreDesc xs)

theorem insertByScore_perm (x : TowDetection) (l : List TowDetection) :
    (insertByScore x l).Perm (x :: l) := by
  induction l with
  | nil => simp [insertByScore]
  | cons y ys ih =>
    simp only [insertByScore]
    split
    · exact List.Perm.refl _
    · exact (ih.cons y).trans (List.Perm.swap x y ys)

theorem insertByScore_sorted (x : TowDetection) (l : List TowDetection)
    (h : l.Sorted (fun a b => b.quality_score ≤ a.quality_score)) :
    (insertByScore x l).Sorted (fun a b => b.quality_score ≤ a.quality_score) := by
  induction l with
  | nil => simp [insertByScore]
  | cons y ys ih =>
    rw [List.sorted_cons] at h
    simp only [insertByScore]
    split
    · rename_i hyx
      rw [List.sorted_cons]
      refine ⟨?_, List.sorted_cons.mpr h⟩
      intro z hz
      rcases List.mem_cons.mp hz with hzy | hzys
      · exact hzy ▸ hyx
      · exact le_trans (h.1 z hzys) hyx
    · rename_i hyx
      rw [List.sorted_cons]
      refine ⟨?_, ih h.2⟩
      intro z hz
      rcases List.mem_cons.mp ((insertByScore_perm x ys).mem_iff.mp hz) with
        hzx | hzys
      · exact hzx ▸ le_of_not_le hyx
      · exact h.1 z hzys

/-- C8 amended theorem: the ranking stage is a stable sort by quality score
descending; its output is a permutation of the accepted set and is sorted by
score, but ties keep input order (see the counterexample for order dependence). -/
theorem sort_by_score_sorted_perm (l : List TowDetection) :
    (sortByScoreDesc l).Perm l ∧
    (sortByScoreDesc l).Sorted (fun a b => b.quality_score ≤ a.quality_score) := by
  induction l with
  | nil => exact ⟨List.Perm.refl _, List.sorted_nil⟩
  | cons x xs ih =>
    exact ⟨(insertByScore_perm x _).trans (ih.1.cons x),
      insertByScore_sorted x _ ih.2⟩

/-- Equal-score detection with the smaller code, for the tie-break experiment. -/
def detA : TowDetection :=
  { code := "600001"
    today_volume_ratio := 2
    stable_avg_volume := 10
    stable_cv := 0
    recent_max_ratio := 1
    similar_volume_days := 0
    quality_score := 70
    stability_score := 30
    first_score := 20
    volume_score := 10
    change_score := 10 }

/-- Equal-score detection with the larger code. -/
def detB : TowDetection :=
  { detA with code := "600002" }

/-- C8 counterexample: with two accepted detections of equal score, the sort
keeps input order on ties, so the output is not symbol-ascending and the two
input permutations give different output sequences. -/
theorem sort_tie_order_dependent_cex :
    sortByScoreDesc [detB, detA] = [detB, detA] ∧
    sortByScoreDesc [detA, detB] = [detA, detB] ∧
    sortByScoreDesc [detB, detA] ≠ sortByScoreDesc [detA, detB] := by
  refine ⟨?_, ?_, ?_⟩ <;> decide

theorem countOver_append (l1 l2 : List Bar) (t : ℚ) :
    countOver (l1 ++ l2) t = countOver l1 t + countOver l2 t := by
  simp [countOver, List.filter_append]

theorem countOver_drop_le (l : List Bar) (k : Nat) (t : ℚ) :
    countOver (l.drop k) t ≤ countOver l t := by
  conv_rhs => rw [← List.take_append_drop k l]
  rw [countOver_append]
  omega

theorem countOver_cons (d : Bar) (ds : List Bar) (t : ℚ) :
    countOver (d :: ds) t = (if t < d.volume then 1 else 0) + countOver ds t := by
  by_cases h : t < d.volume
  · simp [countOver, List.filter_cons, h, Nat.add_comm]
  · simp [countOver, List.filter_cons, h]

theorem countOver_mono (l : List Bar) {t1 t2 : ℚ} (h : t1 ≤ t2) :
    countOver l t2 ≤ countOver l t1 := by
  induction l with
  | nil => simp [countOver]
  | cons d ds ih =>
    rw [countOver_cons, countOver_cons]
    have : (if t2 < d.volume then 1 else 0) ≤ if t1 < d.volume then 1 else 0 := by
      split
      · rename_i h2
        rw [if_pos (lt_of_le_of_lt h h2)]
      · omega
    omega

/-- C1: with the default configuration, an instrument that passes the volume
and change pre-filters and has a full 61-bar history is accepted exactly when
at least one of the three OR-combined modes passes: strict (no long-window day
above today_volume * 0.5), recent-breakthrough (no recent-window day above
today_volume * 0.5), or loose (at most 2 long-window days above
today_volume * 0.6 and at most 1 recent-window day above today_volume * 0.5). -/
theorem wf_accept_iff_modes (info : StockInfo) (kline : List Bar)
    (h1 : ¬ info.today_volume < wfDefaults.min_volume)
    (h2 : ¬ info.change_pct < wfDefaults.min_change_pct)
    (h3 : ¬ kline.length < 61) :
    (analyzeWf wfDefaults info kline).isSome ↔
      (countOver (wfHistorical kline) (info.today_volume * 0.5) = 0 ∨
       countOver (wfRecent wfDefaults kline) (info.today_volume * 0.5) = 0 ∨
       (countOver (wfHistorical kline) (info.today_volume * 0.6) ≤ 2 ∧
        countOver (wfRecent wfDefaults kline) (info.today_volume * 0.5) ≤ 1)) := by
  simp only [analyzeWf, if_neg h1, if_neg h2, if_neg h3]
  rw [show wfDefaults.strict_threshold = 0.5 from rfl,
    show wfDefaults.loose_threshold = 0.6 from rfl]
  split
  · rename_i h
    simp only [isStrictAnomaly, isLooseAnomaly, isRecentBreakthrough,
      Bool.or_eq_true, beq_iff_eq, Bool.and_eq_true, decide_eq_true_eq] at h
    simp only [Option.isSome_some, true_iff]
    omega
  · rename_i h
    simp only [isStrictAnomaly, isLooseAnomaly, isRecentBreakthrough,
      Bool.or_eq_true, beq_iff_eq, Bool.and_eq_true, decide_eq_true_eq] at h
    push_neg at h
    simp only [Option.isSome_none, Bool.false_eq_true, false_iff]
    omega

/-- Pre-filter-passing snapshot used by the workflow witnesses. -/
def infoW : StockInfo :=
  { code := "600000"
    current_price := 10
    change_pct := 2
    today_volume := 20
    turnover := 0 }

/-- Quiet 61-bar history: 60 low-volume days plus the today bar. -/
def klineW : List Bar :=
  List.replicate 61 (Bar.mk 0 1)

/-- Witness for C1: on the quiet history the equivalence is exercised at a
concrete input (strict mode passes, and the instrument is accepted). -/
theorem wf_accept_iff_modes_witness :
    (analyzeWf wfDefaults infoW klineW).isSome ↔
      (countOver (wfHistorical klineW) (infoW.today_volume * 0.5) = 0 ∨
       countOver (wfRecent wfDefaults klineW) (infoW.today_volume * 0.5) = 0 ∨
       (countOver (wfHistorical klineW) (infoW.today_volume * 0.6) ≤ 2 ∧
        countOver (wfRecent wfDefaults klineW) (infoW.today_volume * 0.5) ≤ 1)) :=
  wf_accept_iff_modes infoW klineW (by with_unfolding_all decide)
    (by with_unfolding_all decide) (by with_unfolding_all decide)

/-- C10: whenever the strict mode passes (no long-window day above
today_volume * 0.5), the recent-breakthrough and loose modes necessarily pass
as well, because the recent window is a suffix of the long window and the
loose threshold 0.6 lies above the strict threshold 0.5; the detection then
carries all three anomaly types and a breakthrough sub-score of exactly 100. -/
theorem wf_strict_dominance (info : StockInfo) (kline : List Bar)
    (h1 : ¬ info.today_volume < wfDefaults.min_volume)
    (h2 : ¬ info.change_pct < wfDefaults.min_change_pct)
    (h3 : ¬ kline.length < 61)
    (hstrict : countOver (wfHistorical kline) (info.today_volume * 0.5) = 0) :
    ∃ a, analyzeWf wfDefaults info kline = some a ∧
      a.anomaly_type =
        [AnomalyType.strictBreak, AnomalyType.recentBreak, AnomalyType.looseBreak] ∧
      a.breakthrough_score = 100 := by
  have hrec : countOver (wfRecent wfDefaults kline) (info.today_volume * 0.5) = 0 := by
    have := countOver_drop_le (wfHistorical kline)
      ((wfHistorical kline).length - wfDefaults.recent_days)
      (info.today_volume * 0.5)
    rw [wfRecent]
    omega
  have htv : (0 : ℚ) ≤ info.today_volume := by
    rw [show wfDefaults.min_volume = 5.0 from rfl] at h1
    push_neg at h1
    linarith
  have hmono : info.today_volume * 0.5 ≤ info.today_volume * 0.6 := by linarith
  have hloose : countOver (wfHistorical kline) (info.today_volume * 0.6) = 0 := by
    have := countOver_mono (wfHistorical kline) hmono
    omega
  simp only [analyzeWf, if_neg h1, if_neg h2, if_neg h3]
  rw [show wfDefaults.strict_threshold = 0.5 from rfl,
    show wfDefaults.loose_threshold = 0.6 from rfl]
  have hb1 : isStrictAnomaly
      (countOver (wfHistorical kline) (info.today_volume * 0.5)) = true := by
    simp [isStrictAnomaly, hstrict]
  have hb2 : isRecentBreakthrough
      (countOver (wfRecent wfDefaults kline) (info.today_volume * 0.5)) = true := by
    simp [isRecentBreakthrough, hrec]
  have hb3 : isLooseAnomaly
      (countOver (wfHistorical kline) (info.today_volume * 0.6))
      (countOver (wfRecent wfDefaults kline) (info.today_volume * 0.5)) = true := by
    simp [isLooseAnomaly, hloose, hrec]
  rw [hb1, hb2, hb3]
  simp only [Bool.true_or, if_pos]
  refine ⟨_, rfl, ?_, ?_⟩
  · simp
  · norm_num [breakthroughScore]

/-- Witness for C10: the quiet history passes strict mode and yields a
detection tagged with all three modes and breakthrough sub-score 100. -/
theorem wf_strict_dominance_witness :
    ∃ a, analyzeWf wfDefaults infoW klineW = some a ∧
      a.anomaly_type =
        [AnomalyType.strictBreak, AnomalyType.recentBreak, AnomalyType.looseBreak] ∧
      a.breakthrough_score = 100 :=
  wf_strict_dominance infoW klineW (by with_unfolding_all decide)
    (by with_unfolding_all decide) (by with_unfolding_all decide)
    (by with_unfolding_all decide)

/-- Scenario A snapshot: today volume 20, change 2 percent. -/
def infoA : StockInfo :=
  { code := "600001"
    current_price := 10
    change_pct := 2
    today_volume := 20
    turnover := 0 }

/-- Scenario A history: the ten stable-window volumes of the spec followed by
fifty quiet days of volume 9 (so the recent window holds no day above 10) and
the today bar of volume 20. -/
def klineA : List Bar :=
  [Bar.mk 0 8, Bar.mk 1 9, Bar.mk 2 10, Bar.mk 3 11, Bar.mk 4 9, Bar.mk 5 10,
   Bar.mk 6 8, Bar.mk 7 9, Bar.mk 8 10, Bar.mk 9 11] ++
  List.replicate 50 (Bar.mk 10 9) ++ [Bar.mk 60 20]

/-- C6 counterexample: on the Scenario A input the long-window breach count at
threshold 10 is indeed 2, but then strict mode does NOT pass (it requires a
zero count), even though the instrument is accepted. -/
theorem scenario_a_strict_fails_cex :
    countOver (wfHistorical klineA) (infoA.today_volume * 0.5) = 2 ∧
    isStrictAnomaly (countOver (wfHistorical klineA) (infoA.today_volume * 0.5))
      = false ∧
    (analyzeWf wfDefaults infoA klineA).isSome = true := by
  with_unfolding_all decide

/-- C6 amended theorem: on the Scenario A input the breach count is 2, so
strict mode fails, and the instrument is accepted through the
recent-breakthrough and loose modes (no recent-window day above 10). -/
theorem scenario_a_amended :
    (analyzeWf wfDefaults infoA klineA).map WfAnomaly.over_strict_days = some 2 ∧
    (analyzeWf wfDefaults infoA klineA).map WfAnomaly.over_strict_recent = some 0 ∧
    (analyzeWf wfDefaults infoA klineA).map WfAnomaly.anomaly_type =
      some [AnomalyType.recentBreak, AnomalyType.looseBreak] := by
  with_unfolding_all decide

theorem length_sliceNeg {α : Type} (l : List α) (m k : Nat) :
    (sliceNeg l m k).length = (l.length - k) - (l.length - m) := by
  simp only [sliceNeg, List.length_drop, List.length_take]
  omega

theorem take_decomp {α : Type} (l : List α) (a b : Nat) (hab : a ≤ b) :
    l.take b = l.take a ++ (l.take b).drop a := by
  conv_lhs => rw [← List.take_append_drop a (l.take b)]
  rw [List.take_take, min_eq_left hab]

/-- C2: whenever at least stable_days + recent_check_days + 1 bars are
available, the stable window has exactly stable_days bars, the recent window
exactly recent_check_days bars, and the history decomposes as some prefix,
then the stable window, then the recent window, then the today bar alone; when
bar dates are distinct the date sets of the two windows and of today are
pairwise disjoint.  When fewer bars are available and the pre-filter passes,
the analysis rejects with InsufficientHistory. -/
theorem tow_window_partition_spec (cfg : TowConfig) (info : StockInfo)
    (kline : List Bar) :
    (cfg.stable_days + cfg.recent_check_days + 1 ≤ kline.length →
      (stablePeriod cfg.stable_days cfg.recent_check_days kline).length
          = cfg.stable_days ∧
      (recentPeriod cfg.recent_check_days kline).length = cfg.recent_check_days ∧
      ∃ pre lastBar,
        kline = pre ++ stablePeriod cfg.stable_days cfg.recent_check_days kline
          ++ recentPeriod cfg.recent_check_days kline ++ [lastBar] ∧
        ((kline.map Bar.date).Nodup →
          lastBar.date ∉
            (stablePeriod cfg.stable_days cfg.recent_check_days kline).map Bar.date ∧
          lastBar.date ∉ (recentPeriod cfg.recent_check_days kline).map Bar.date ∧
          ((stablePeriod cfg.stable_days cfg.recent_check_days kline).map
            Bar.date).Disjoint
            ((recentPeriod cfg.recent_check_days kline).map Bar.date))) ∧
    (¬(info.current_price < cfg.min_price ∨ cfg.max_price < info.current_price ∨
        info.change_pct < cfg.today_change_min ∨
        cfg.today_change_max < info.change_pct ∨
        info.today_volume < cfg.min_avg_volume) →
      kline.length < cfg.stable_days + cfg.recent_check_days + 1 →
      analyzeTowR cfg info kline = Except.error Reason.insufficientHistory) := by
  constructor
  · intro hlen
    have hlen1 : 1 ≤ kline.length := by omega
    refine ⟨?_, ?_, ?_⟩
    · rw [stablePeriod, length_sliceNeg]
      omega
    · rw [recentPeriod, length_sliceNeg]
      omega
    · obtain ⟨lastBar, hlast⟩ : ∃ x, kline.drop (kline.length - 1) = [x] := by
        apply List.length_eq_one.mp
        rw [List.length_drop]
        omega
      have e1 : kline.take (kline.length - 1)
          = kline.take (kline.length - (cfg.recent_check_days + 1))
            ++ recentPeriod cfg.recent_check_days kline := by
        have h := take_decomp kline
          (kline.length - (cfg.recent_check_days + 1)) (kline.length - 1)
          (by omega)
        rw [recentPeriod, sliceNeg]
        exact h
      have e2 : kline.take (kline.length - (cfg.recent_check_days + 1))
          = kline.take
              (kline.length - (cfg.stable_days + cfg.recent_check_days + 1))
            ++ stablePeriod cfg.stable_days cfg.recent_check_days kline := by
        have h := take_decomp kline
          (kline.length - (cfg.stable_days + cfg.recent_check_days + 1))
          (kline.length - (cfg.recent_check_days + 1)) (by omega)
        rw [stablePeriod, sliceNeg]
        exact h
      have hdecomp : kline
          = kline.take
              (kline.length - (cfg.stable_days + cfg.recent_check_days + 1))
            ++ stablePeriod cfg.stable_days cfg.recent_check_days kline
            ++ recentPeriod cfg.recent_check_days kline ++ [lastBar] := by
        conv_lhs => rw [← List.take_append_drop (kline.length - 1) kline]
        rw [hlast, e1, e2]
      refine ⟨_, lastBar, hdecomp, ?_⟩
      intro hnd
      have hnd2 : ((kline.take
            (kline.length - (cfg.stable_days + cfg.recent_check_days + 1))
          ++ stablePeriod cfg.stable_days cfg.recent_check_days kline
          ++ recentPeriod cfg.recent_check_days kline ++ [lastBar]).map
            Bar.date).Nodup := by
        rw [← hdecomp]
        exact hnd
      simp only [List.map_append, List.nodup_append, List.map_cons,
        List.map_nil, List.disjoint_append_right] at hnd2
      obtain ⟨⟨⟨-, -, -⟩, -, hpsDr⟩, -, hpsrDl⟩ := hnd2
      refine ⟨?_, ?_, fun x hx => hpsDr (List.mem_append_right _ hx)⟩
      · intro hmem
        exact hpsrDl
          (List.mem_append_left _ (List.mem_append_right _ hmem))
          (List.mem_singleton.mpr rfl)
      · intro hmem
        exact hpsrDl (List.mem_append_right _ hmem)
          (List.mem_singleton.mpr rfl)
  · intro hpre hlen
    simp only [analyzeTowR, if_neg hpre]
    by_cases h22 : kline.length < 22
    · rw [if_pos h22]
    · rw [if_neg h22]
      rw [if_pos ?_]
      have hs := length_sliceNeg kline
        (cfg.stable_days + cfg.recent_check_days + 1) (cfg.recent_check_days + 1)
      have hr := length_sliceNeg kline (cfg.recent_check_days + 1) 1
      rw [stablePeriod, recentPeriod]
      omega

/-- Pre-filter-passing snapshot for the first-volume detectors. -/
def infoT : StockInfo :=
  { code := "600002"
    current_price := 10
    change_pct := 2
    today_volume := 20
    turnover := 0 }

/-- Full 36-bar history for the moderate detector: 20 stable days of volume 9,
15 recent days of volume 1, and the today bar; dates are distinct. -/
def klineT : List Bar :=
  (List.range 20).map (fun i => Bar.mk i 9) ++
  (List.range 15).map (fun i => Bar.mk (20 + i) 1) ++ [Bar.mk 35 20]

/-- Short 25-bar history (at least 22, but fewer than the 36 bars the window
split needs). -/
def klineShort : List Bar :=
  (List.range 25).map (fun i => Bar.mk i 5)

/-- C3: the stability analyzer computes over the stable-window volumes with
non-positive days removed; after the pre-filter and window checks it rejects
with InsufficientStableSamples exactly when fewer than 15 positive days remain
(15 of the 20 stable days); the sample standard deviation of one sample is 0;
a zero mean makes the cv comparison fail unconditionally (the float inf of
the source) while a positive mean gives cv = stdev/mean; and with enough
samples the analysis rejects with BaselineTooThin exactly when mean <
min_avg_volume and with BaselineUnstable exactly when the mean is acceptable
but cv exceeds max_cv — two distinguishable causes. -/
theorem tow_stability_analyzer_spec (cfg : TowConfig) (info : StockInfo)
    (kline : List Bar)
    (hpre : ¬(info.current_price < cfg.min_price ∨
        cfg.max_price < info.current_price ∨
        info.change_pct < cfg.today_change_min ∨
        cfg.today_change_max < info.change_pct ∨
        info.today_volume < cfg.min_avg_volume))
    (h22 : ¬ kline.length < 22)
    (hwin : ¬((stablePeriod cfg.stable_days cfg.recent_check_days kline).length
          < cfg.stable_days ∨
        (recentPeriod cfg.recent_check_days kline).length
          < cfg.recent_check_days)) :
    (∀ v ∈ positiveVolumes (stablePeriod cfg.stable_days cfg.recent_check_days
        kline), 0 < v)
    ∧ ((analyzeTowR cfg info kline
          = Except.error Reason.insufficientStableSamples) ↔
        (positiveVolumes (stablePeriod cfg.stable_days cfg.recent_check_days
          kline)).length < 15)
    ∧ (∀ x : ℚ, sampleStdev [x] = 0)
    ∧ (∀ std maxCv : ℚ, cvExceeds (cvOf std 0) maxCv = true)
    ∧ (∀ std avg : ℚ, 0 < avg → cvOf std avg = some (std / avg))
    ∧ (¬ (positiveVolumes (stablePeriod cfg.stable_days cfg.recent_check_days
          kline)).length < 15 →
        ((analyzeTowR cfg info kline = Except.error Reason.baselineTooThin) ↔
          listMean (positiveVolumes (stablePeriod cfg.stable_days
            cfg.recent_check_days kline)) < cfg.min_avg_volume)
        ∧ ((analyzeTowR cfg info kline = Except.error Reason.baselineUnstable) ↔
          (¬ listMean (positiveVolumes (stablePeriod cfg.stable_days
              cfg.recent_check_days kline)) < cfg.min_avg_volume ∧
            cvExceeds
              (cvOf (sampleStdev (positiveVolumes (stablePeriod cfg.stable_days
                cfg.recent_check_days kline)))
                (listMean (positiveVolumes (stablePeriod cfg.stable_days
                  cfg.recent_check_days kline)))) cfg.max_cv = true))) := by
  refine ⟨?_, ?_, ?_, ?_, ?_, ?_⟩
  · intro v hv
    simp only [positiveVolumes, List.mem_map, List.mem_filter,
      decide_eq_true_eq] at hv
    obtain ⟨d, ⟨-, hd⟩, rfl⟩ := hv
    exact hd
  · simp only [analyzeTowR, if_neg hpre, if_neg h22, if_neg hwin]
    by_cases h15 : (positiveVolumes (stablePeriod cfg.stable_days
        cfg.recent_check_days kline)).length < 15
    · rw [if_pos h15]
      simp [h15]
    · rw [if_neg h15]
      simp only [h15, iff_false]
      intro hc
      repeat' split at hc
      all_goals first
        | (injection hc with h2; exact Reason.noConfusion h2)
        | injection hc
  · intro x
    simp [sampleStdev]
  · intro std maxCv
    simp [cvOf, cvExceeds, lt_irrefl]
  · intro std avg h
    simp [cvOf, h]
  · intro h15
    constructor
    · simp only [analyzeTowR, if_neg hpre, if_neg h22, if_neg hwin,
        if_neg h15]
      by_cases hm : listMean (positiveVolumes (stablePeriod cfg.stable_days
          cfg.recent_check_days kline)) < cfg.min_avg_volume
      · rw [if_pos hm]
        simp [hm]
      · rw [if_neg hm]
        simp only [hm, iff_false]
        intro hc
        repeat' split at hc
        all_goals first
          | (injection hc with h2; exact Reason.noConfusion h2)
          | injection hc
    · simp only [analyzeTowR, if_neg hpre, if_neg h22, if_neg hwin,
        if_neg h15]
      by_cases hm : listMean (positiveVolumes (stablePeriod cfg.stable_days
          cfg.recent_check_days kline)) < cfg.min_avg_volume
      · rw [if_pos hm]
        simp [hm]
      · rw [if_neg hm]
        by_cases hcv : cvExceeds
            (cvOf (sampleStdev (positiveVolumes (stablePeriod cfg.stable_days
              cfg.recent_check_days kline)))
              (listMean (positiveVolumes (stablePeriod cfg.stable_days
                cfg.recent_check_days kline)))) cfg.max_cv = true
        · rw [if_pos hcv]
          simp [hm, hcv]
        · rw [if_neg hcv]
          constructor
          · intro hc
            repeat' split at hc
            all_goals first
              | (injection hc with h2; exact Reason.noConfusion h2)
              | injection hc
          · rintro ⟨-, h⟩
            exact absurd h hcv

/-- Witness for C2: on the 36-bar history the stable window has exactly the 20
configured days, and on the 25-bar history (pre-filter passing) the analysis
rejects with InsufficientHistory. -/
theorem tow_window_partition_spec_witness :
    (stablePeriod towDefaults.stable_days towDefaults.recent_check_days
      klineT).length = towDefaults.stable_days ∧
    analyzeTowR towDefaults infoT klineShort
      = Except.error Reason.insufficientHistory :=
  ⟨((tow_window_partition_spec towDefaults infoT klineT).1
      (by with_unfolding_all decide)).1,
   (tow_window_partition_spec towDefaults infoT klineShort).2
     (by with_unfolding_all decide) (by with_unfolding_all decide)⟩

/-- Witness for C3: on the 36-bar history all 20 stable days survive the
positivity filter (so no InsufficientStableSamples) and the mean 9 meets the
minimum 8 (so no BaselineTooThin). -/
theorem tow_stability_analyzer_spec_witness :
    analyzeTowR towDefaults infoT klineT
      ≠ Except.error Reason.insufficientStableSamples ∧
    analyzeTowR towDefaults infoT klineT
      ≠ Except.error Reason.baselineTooThin := by
  have h := tow_stability_analyzer_spec towDefaults infoT klineT
    (by with_unfolding_all decide) (by with_unfolding_all decide)
    (by with_unfolding_all decide)
  constructor
  · intro hc
    exact absurd (h.2.1.mp hc) (by with_unfolding_all decide)
  · intro hc
    have h6 := ((h.2.2.2.2.2 (by with_unfolding_all decide)).1).mp hc
    exact absurd h6 (by with_unfolding_all decide)

/-- C5: in both ratio-based detectors, once the history, baseline and ratio
checks pass, the analysis rejects with NotFirstOccurrence exactly when the
count of recent-window days whose ratio to baseline reaches p times the today
ratio exceeds max_similar_days, with p = 0.7 in the relaxed variant and
p = 0.8 in the moderate variant. -/
theorem similar_day_rejection_spec :
    (∀ (cfg : TowConfig) (info : StockInfo) (kline : List Bar),
      ¬(info.current_price < cfg.min_price ∨
          cfg.max_price < info.current_price ∨
          info.change_pct < cfg.today_change_min ∨
          cfg.today_change_max < info.change_pct ∨
          info.today_volume < cfg.min_avg_volume) →
      ¬ kline.length < 18 →
      ¬((stablePeriod cfg.stable_days cfg.recent_check_days kline).length
            < cfg.stable_days ∨
          (recentPeriod cfg.recent_check_days kline).length
            < cfg.recent_check_days) →
      ¬ (positiveVolumes (stablePeriod cfg.stable_days cfg.recent_check_days
          kline)).length < 10 →
      ¬ listMean (positiveVolumes (stablePeriod cfg.stable_days
          cfg.recent_check_days kline)) < cfg.min_avg_volume →
      ¬ cvExceeds
          (cvOf (sampleStdev (positiveVolumes (stablePeriod cfg.stable_days
            cfg.recent_check_days kline)))
            (listMean (positiveVolumes (stablePeriod cfg.stable_days
              cfg.recent_check_days kline)))) cfg.max_cv = true →
      (cfg.today_volume_min_ratio ≤
          dayRatio (listMean (positiveVolumes (stablePeriod cfg.stable_days
            cfg.recent_check_days kline))) info.today_volume ∧
        dayRatio (listMean (positiveVolumes (stablePeriod cfg.stable_days
          cfg.recent_check_days kline))) info.today_volume ≤
          cfg.today_volume_max_ratio) →
      ((analyzeRelaxedR cfg info kline
          = Except.error Reason.notFirstOccurrence) ↔
        cfg.max_similar_days < similarCount 0.7
          (listMean (positiveVolumes (stablePeriod cfg.stable_days
            cfg.recent_check_days kline)))
          (dayRatio (listMean (positiveVolumes (stablePeriod cfg.stable_days
            cfg.recent_check_days kline))) info.today_volume)
          (recentPeriod cfg.recent_check_days kline)))
    ∧ (∀ (cfg : TowConfig) (info : StockInfo) (kline : List Bar),
      ¬(info.current_price < cfg.min_price ∨
          cfg.max_price < info.current_price ∨
          info.change_pct < cfg.today_change_min ∨
          cfg.today_change_max < info.change_pct ∨
          info.today_volume < cfg.min_avg_volume) →
      ¬ kline.length < 22 →
      ¬((stablePeriod cfg.stable_days cfg.recent_check_days kline).length
            < cfg.stable_days ∨
          (recentPeriod cfg.recent_check_days kline).length
            < cfg.recent_check_days) →
      ¬ (positiveVolumes (stablePeriod cfg.stable_days cfg.recent_check_days
          kline)).length < 15 →
      ¬ listMean (positiveVolumes (stablePeriod cfg.stable_days
          cfg.recent_check_days kline)) < cfg.min_avg_volume →
      ¬ cvExceeds
          (cvOf (sampleStdev (positiveVolumes (stablePeriod cfg.stable_days
            cfg.recent_check_days kline)))
            (listMean (positiveVolumes (stablePeriod cfg.stable_days
              cfg.recent_check_days kline)))) cfg.max_cv = true →
      (cfg.today_volume_min_ratio ≤
          dayRatio (listMean (positiveVolumes (stablePeriod cfg.stable_days
            cfg.recent_check_days kline))) info.today_volume ∧
        dayRatio (listMean (positiveVolumes (stablePeriod cfg.stable_days
          cfg.recent_check_days kline))) info.today_volume ≤
          cfg.today_volume_max_ratio) →
      ((analyzeTowR cfg info kline = Except.error Reason.notFirstOccurrence) ↔
        cfg.max_similar_days < similarCount 0.8
          (listMean (positiveVolumes (stablePeriod cfg.stable_days
            cfg.recent_check_days kline)))
          (dayRatio (listMean (positiveVolumes (stablePeriod cfg.stable_days
            cfg.recent_check_days kline))) info.today_volume)
          (recentPeriod cfg.recent_check_days kline))) := by
  constructor
  · intro cfg info kline hpre h18 hwin h10 havm hcv hratio
    simp only [analyzeRelaxedR, if_neg hpre, if_neg h18, if_neg hwin,
      if_neg h10, if_neg havm, if_neg hcv, if_neg (not_not_intro hratio)]
    by_cases hs : similarCount 0.7
        (listMean (positiveVolumes (stablePeriod cfg.stable_days
          cfg.recent_check_days kline)))
        (dayRatio (listMean (positiveVolumes (stablePeriod cfg.stable_days
          cfg.recent_check_days kline))) info.today_volume)
        (recentPeriod cfg.recent_check_days kline) ≤ cfg.max_similar_days
    · rw [if_neg (not_not_intro hs)]
      constructor
      · intro hc
        repeat' split at hc
        all_goals first
          | (injection hc with h2; exact Reason.noConfusion h2)
          | injection hc
      · intro hlt
        exact absurd hlt (Nat.not_lt.mpr hs)
    · rw [if_pos hs]
      simp only [Nat.not_le] at hs
      simp [hs]
  · intro cfg info kline hpre h22 hwin h15 havm hcv hratio
    simp only [analyzeTowR, if_neg hpre, if_neg h22, if_neg hwin,
      if_neg h15, if_neg havm, if_neg hcv, if_neg (not_not_intro hratio)]
    by_cases hs : similarCount 0.8
        (listMean (positiveVolumes (stablePeriod cfg.stable_days
          cfg.recent_check_days kline)))
        (dayRatio (listMean (positiveVolumes (stablePeriod cfg.stable_days
          cfg.recent_check_days kline))) info.today_volume)
        (recentPeriod cfg.recent_check_days kline) ≤ cfg.max_similar_days
    · rw [if_neg (not_not_intro hs)]
      constructor
      · intro hc
        repeat' split at hc
        all_goals first
          | (injection hc with h2; exact Reason.noConfusion h2)
          | injection hc
      · intro hlt
        exact absurd hlt (Nat.not_lt.mpr hs)
    · rw [if_pos hs]
      simp only [Nat.not_le] at hs
      simp [hs]

/-- Relaxed configuration with the Scenario B parameter max_similar_days = 0. -/
def cfgC5 : TowConfig :=
  { relaxedDefaults with max_similar_days := 0 }

/-- Scenario B snapshot: today volume 20 against a baseline mean of 9.5, so
the today ratio is 40/19, about 2.11. -/
def infoC5 : StockInfo :=
  { code := "600003"
    current_price := 10
    change_pct := 2
    today_volume := 20
    turnover := 0 }

/-- Scenario B history for the relaxed detector: 10 stable days of volume 9.5
(mean 9.5, cv 0), a recent window holding one day of volume 18 (ratio 36/19,
above 0.7 times the today ratio) among 19 quiet days, then the today bar. -/
def klineC5 : List Bar :=
  (List.range 10).map (fun i => Bar.mk i (19 / 2)) ++
  [Bar.mk 10 18] ++ (List.range 19).map (fun i => Bar.mk (11 + i) 1) ++
  [Bar.mk 30 20]

/-- Moderate-detector history with two similar recent days of volume 18, so
the count 2 exceeds max_similar_days = 1. -/
def klineT5 : List Bar :=
  (List.range 20).map (fun i => Bar.mk i (19 / 2)) ++
  [Bar.mk 20 18, Bar.mk 21 18] ++
  (List.range 13).map (fun i => Bar.mk (22 + i) 1) ++ [Bar.mk 35 20]

/-- Witness for C5: the Scenario B input is rejected with NotFirstOccurrence
by the relaxed variant at max_similar_days = 0, and a two-similar-day input is
rejected by the moderate variant at its default max_similar_days = 1. -/
theorem similar_day_rejection_spec_witness :
    analyzeRelaxedR cfgC5 infoC5 klineC5
      = Except.error Reason.notFirstOccurrence ∧
    analyzeTowR towDefaults infoC5 klineT5
      = Except.error Reason.notFirstOccurrence :=
  ⟨(similar_day_rejection_spec.1 cfgC5 infoC5 klineC5
      (by with_unfolding_all decide) (by with_unfolding_all decide)
      (by with_unfolding_all decide) (by with_unfolding_all decide)
      (by with_unfolding_all decide) (by with_unfolding_all decide)
      (by with_unfolding_all decide)).mpr (by with_unfolding_all decide),
   (similar_day_rejection_spec.2 towDefaults infoC5 klineT5
      (by with_unfolding_all decide) (by with_unfolding_all decide)
      (by with_unfolding_all decide) (by with_unfolding_all decide)
      (by with_unfolding_all decide) (by with_unfolding_all decide)
      (by with_unfolding_all decide)).mpr (by with_unfolding_all decide)⟩

/-- Full-length history whose stable window has mean 1, below the minimum
average volume 8 of the moderate detector. -/
def klineThin : List Bar :=
  (List.range 35).map (fun i => Bar.mk i 1) ++ [Bar.mk 35 20]

deriving instance DecidableEq for Except

/-- C9 counterexample: two inputs that fail different checks (too short a
history versus a too-thin baseline) produce the identical rejection value
None; the per-symbol result does not record which check failed. -/
theorem rejection_reasons_collapse_cex :
    analyzeTow towDefaults infoT klineShort
      = analyzeTow towDefaults infoT klineThin ∧
    analyzeTowR towDefaults infoT klineShort
      = Except.error Reason.insufficientHistory ∧
    analyzeTowR towDefaults infoT klineThin
      = Except.error Reason.baselineTooThin ∧
    Reason.insufficientHistory ≠ Reason.baselineTooThin := by
  with_unfolding_all decide

/-- C9 amended theorem: whatever check rejects an instrument, the analysis of
the source returns the same generic None, so distinct rejection causes are not
distinguishable from the per-symbol result and no reason log is produced. -/
theorem rejections_collapse_to_none (cfg : TowConfig) (info : StockInfo)
    (kline : List Bar) (r : Reason)
    (h : analyzeTowR cfg info kline = Except.error r) :
    analyzeTow cfg info kline = none := by
  simp [analyzeTow, h, exceptErase]

/-- Witness for the C9 amended theorem at the short-history input. -/
theorem rejections_collapse_to_none_witness :
    analyzeTow towDefaults infoT klineShort = none :=
  rejections_collapse_to_none towDefaults infoT klineShort
    Reason.insufficientHistory (by with_unfolding_all decide)
